import Mathlib

/-!
# Verification of the cloudcover repository

Shallow embedding of the three source files of `cloudcover`
(`workers/processing.py`, `workers/ingestion.py`, `backend/main.py`).

Modelling conventions:
* A floating-point pixel value is `Option ℚ`: `none` models IEEE NaN and
  `some v` a finite value.  Every comparison the code performs on a possibly-NaN
  value (`data < threshold`, `vis_data > vis_threshold`) is false on NaN, which
  the `Option.elim false` pattern reproduces exactly.  Finite float arithmetic
  is modelled by exact rational arithmetic.
* A numpy 2-D array is modelled as a flat `List` of pixels (all the elementwise
  operations the code uses — comparison masks, `logical_or`, `sum` — are
  shape-oblivious reductions, so the flattening is faithful).
* A Python function that can raise `KeyError` (dict-style band lookup `ds[b]`)
  returns `Except String` with the missing key; a function that catches all
  exceptions and returns `None` returns `Option`.
* External collaborators (the S3 listing, the `wget` subprocess, the dataset
  loader, the ISO-8601 parser) are inputs to the embedded functions: the
  listing result, the transfer return code and the parsed timestamp are
  parameters, exactly as the spec treats them (injected environment).
-/

/-- A single floating-point pixel value: `none` is NaN. -/
abbrev Pixel : Type := Option ℚ

/-- A named spectral band: the flattened 2-D grid of pixel values. -/
abbrev Band : Type := List Pixel

/-- The parsed value of the `time_coverage_start` attribute, as produced by
`datetime.datetime.fromisoformat` after the trailing `Z` has been replaced by
`+00:00`: we retain the only field the code reads, the UTC hour. -/
structure ScanTime where
  hour : ℕ
deriving DecidableEq, Repr

/-- A decoded scan (`xarray` dataset): named bands plus the optional
`time_coverage_start` attribute (already parsed, see `ScanTime`). -/
structure Scan where
  bands : List (String × Band)
  time_coverage_start : Option ScanTime
deriving DecidableEq, Repr

/-- Band lookup `ds[b]` / membership test `b in ds`, as an `Option`. -/
def Scan.find? (ds : Scan) (b : String) : Option Band :=
  ds.bands.lookup b

/-- `is_daytime(ds)` from `workers/processing.py`: if `time_coverage_start`
is absent return `True`; otherwise daytime iff the scan-start UTC hour is in
`[6, 18]` (`6 <= hour <= 18`). -/
def is_daytime (ds : Scan) : Bool :=
  match ds.time_coverage_start with
  | none => true
  | some scan_start => 6 ≤ scan_start.hour && scan_start.hour ≤ 18

/-- The IR cloud mask `data < threshold` (elementwise; false on NaN). -/
def irMaskOf (data : Band) (threshold : ℚ) : List Bool :=
  data.map fun p => p.elim false fun v => decide (v < threshold)

/-- A visible-band mask `vis_data > vis_threshold` (elementwise; false on NaN). -/
def visMaskOf (vis_data : Band) (vis_threshold : ℚ) : List Bool :=
  vis_data.map fun p => p.elim false fun v => decide (vis_threshold < v)

/-- The number of non-NaN pixels, `np.sum(~np.isnan(data))`. -/
def validCount (data : Band) : ℕ :=
  (data.filter Option.isSome).length

/-- `calc_cloud_fraction_ir(ds, band="CMI_C13", threshold=280.0)` from
`workers/processing.py`.  `.error band` models the `KeyError` raised by
`ds[band]` when the band is absent; `.ok none` models the NaN result. -/
def calc_cloud_fraction_ir (ds : Scan) (band : String := "CMI_C13")
    (threshold : ℚ := 280) : Except String (Option ℚ) :=
  match ds.find? band with
  | none => .error band
  | some data =>
    let mask := irMaskOf data threshold
    let cloud_pixels : ℕ := mask.count true
    let total_pixels : ℕ := validCount data
    if total_pixels > 0 then
      .ok (some ((cloud_pixels : ℚ) / (total_pixels : ℚ) * 100))
    else
      .ok none

/-- The list of visible-band masks built by the `for vb in vis_bands` loop:
one mask per configured visible band that is present in the scan, absent
bands skipped silently. -/
def visMasks (ds : Scan) (vis_bands : List String) (vis_threshold : ℚ) :
    List (List Bool) :=
  vis_bands.filterMap fun vb => (ds.find? vb).map fun vis_data =>
    visMaskOf vis_data vis_threshold

/-- The visible mask of `calc_cloud_fraction_multiband`:
`np.logical_or.reduce(vis_masks)` when `vis_masks` is non-empty, and
`np.zeros_like(ir_mask)` (an all-false mask of the IR mask's size `n`)
otherwise. -/
def reduceOrMasks (masks : List (List Bool)) (n : ℕ) : List Bool :=
  match masks with
  | [] => List.replicate n false
  | m :: ms => ms.foldl (fun a b => List.zipWith (· || ·) a b) m

/-- The combined cloud mask of `calc_cloud_fraction_multiband`:
`np.logical_or(ir_mask, vis_mask)`. -/
def combinedMask (ds : Scan) (ir_data : Band) (vis_bands : List String)
    (ir_threshold vis_threshold : ℚ) : List Bool :=
  List.zipWith (· || ·) (irMaskOf ir_data ir_threshold)
    (reduceOrMasks (visMasks ds vis_bands vis_threshold)
      (irMaskOf ir_data ir_threshold).length)

/-- `calc_cloud_fraction_multiband(ds, ir_band="CMI_C13",
vis_bands=["CMI_C02","CMI_C03"], ir_threshold=280.0, vis_threshold=0.3)` from
`workers/processing.py`.  `.error ir_band` models the `KeyError` raised by
`ds[ir_band]`; the valid-pixel denominator uses only the IR band. -/
def calc_cloud_fraction_multiband (ds : Scan) (ir_band : String := "CMI_C13")
    (vis_bands : List String := ["CMI_C02", "CMI_C03"])
    (ir_threshold : ℚ := 280) (vis_threshold : ℚ := 3/10) :
    Except String (Option ℚ) :=
  match ds.find? ir_band with
  | none => .error ir_band
  | some ir_data =>
    let combined := combinedMask ds ir_data vis_bands ir_threshold vis_threshold
    let total_pixels : ℕ := validCount ir_data
    let cloud_pixels : ℕ := combined.count true
    if total_pixels > 0 then
      .ok (some ((cloud_pixels : ℚ) / (total_pixels : ℚ) * 100))
    else
      .ok none

/-- `calc_cloud_fraction(ds)` from `workers/processing.py`: multiband during
daytime, IR-only at night. -/
def calc_cloud_fraction (ds : Scan) : Except String (Option ℚ) :=
  if is_daytime ds then calc_cloud_fraction_multiband ds
  else calc_cloud_fraction_ir ds

/-! ## workers/ingestion.py -/

/-- The result of the archive listing `fs.ls(prefix)`: either the listed
object paths (in the order the archive returns them — ordered by name, per
the S3 listing contract) or a raised exception with its message. -/
inductive LsResult where
  | ok (files : List String)
  | err (msg : String)
deriving DecidableEq, Repr

/-- The hourly partition key string built by `get_latest_goes_file`:
`f"{satellite}/{product}/{year}/{day_of_year}/{hour}/"`, where the three
date components are the `strftime` outputs (already zero-padded strings). -/
def hourlyKey (satellite product year day_of_year hour : String) : String :=
  satellite ++ "/" ++ product ++ "/" ++ year ++ "/" ++ day_of_year ++ "/" ++
    hour ++ "/"

/-- `get_latest_goes_file(product, satellite)` from `workers/ingestion.py`.
The archive filesystem is the injected function `ls`; the `strftime` pieces of
the current UTC instant are injected as strings.  Inside the `try` block an
empty listing raises `ValueError` and `files[-1]` is returned otherwise; the
`except Exception` arm turns every raise — including the listing's own
failure — into `None`. -/
def get_latest_goes_file (ls : String → LsResult)
    (product : String := "ABI-L2-MCMIPC") (satellite : String := "noaa-goes19")
    (year day_of_year hour : String := "") : Option String :=
  match ls (hourlyKey satellite product year day_of_year hour) with
  | .err _ => none
  | .ok files =>
    match files.getLast? with
    | none => none
    | some f => some f

/-- `os.path.basename(url)`: the substring after the last `/`. -/
def basename (url : String) : String :=
  (url.splitOn "/").getLastD ""

/-- `run_wget(url, output_path=None)` from `workers/ingestion.py`.  The
subprocess return code is injected; the function returns the local output
path on return code `0` and `None` otherwise. -/
def run_wget (url : String) (output_path : Option String := none)
    (returncode : ℤ := 0) : Option String :=
  let out := output_path.getD (basename url)
  if returncode = 0 then some out else none

/-! ## backend/main.py -/

/-- The JSON payload (or uncaught exception) produced by the
`GET /cloud-cover` handler. -/
inductive ApiResult where
  /-- `{"error": "No recent GOES files found"}` -/
  | errNoFiles
  /-- `{"error": "Failed to download GOES file"}` -/
  | errDownload
  /-- `{"cloud_cover_percent": ..., "source_file": path}`; `none` is NaN. -/
  | ok (cloud_cover_percent : Option ℚ) (source_file : String)
  /-- an exception (the classifier's `KeyError`) escaping the handler -/
  | raised (key : String)
deriving DecidableEq, Repr

/-- `latest.split("/", 1)[1]`: everything after the first `/`. -/
def pathAfterBucket (latest : String) : String :=
  String.intercalate "/" ((latest.splitOn "/").tail)

/-- `get_cloud_cover()` from `backend/main.py`.  The environment is injected:
`latest` is the value of `get_latest_goes_file()`, `wget_rc` the transfer's
return code, `wget_leaves_file` whether the failed transfer left a partial
file on disk (behaviour of the external `wget`, which the handler never
cleans up), and `ds` the dataset the loader opens.  The second component of
the result is whether the local artifact file still exists when the call
completes: the `try`/`finally` always runs `os.remove(local_file)` once the
download succeeded, on the normal return and on the exception path alike. -/
def get_cloud_cover (latest : Option String) (wget_rc : ℤ)
    (wget_leaves_file : Bool) (ds : Scan) : ApiResult × Bool :=
  match latest with
  | none => (.errNoFiles, false)
  | some lf =>
    let url := "https://" ++ (lf.splitOn "/").headD "" ++ ".s3.amazonaws.com/"
      ++ pathAfterBucket lf
    match run_wget url none wget_rc with
    | none => (.errDownload, wget_leaves_file)
    | some _ =>
      match calc_cloud_fraction ds with
      | .error k => (.raised k, false)
      | .ok p => (.ok p (pathAfterBucket lf), false)

/-! ## Concrete test scans (from the spec's worked examples) -/

/-- The spec's IR worked example: band `[270, 290, NaN, 275]`. -/
def scanIrExample : Scan :=
  ⟨[("CMI_C13", [some 270, some 290, none, some 275])], none⟩

/-- An all-NaN IR band. -/
def scanAllNaN : Scan :=
  ⟨[("CMI_C13", [none, none])], none⟩

/-- The spec's multiband worked example: IR `[290, 270]`, one visible band
`[0.1, 0.5]`, the second configured visible band absent. -/
def scanDayExample : Scan :=
  ⟨[("CMI_C13", [some 290, some 270]), ("CMI_C02", [some (1/10), some (5/10)])],
    none⟩

/-- A scan whose IR band has a NaN pixel at a position where the (present)
visible band is bright: `time_coverage_start` absent (so the day path is
taken), IR `[NaN, 270]`, visible `[0.5, 0.5]`. -/
def scanIrNaNBrightVis : Scan :=
  ⟨[("CMI_C13", [none, some 270]), ("CMI_C02", [some (1/2), some (1/2)])],
    none⟩

/-- A scan with an IR band and no visible bands at all. -/
def scanIrOnly : Scan :=
  ⟨[("CMI_C13", [some 250, some 300, none])], none⟩

/-- The cloudy-pixel predicate in the words of the spec: a pixel is cloudy
iff its IR value is strictly below the IR threshold, or some configured
visible band is present in the scan and its value at that pixel strictly
exceeds the visible threshold. -/
def cloudyPerSpec (ds : Scan) (ir_data : Band) (vis_bands : List String)
    (ir_threshold vis_threshold : ℚ) (i : ℕ) : Prop :=
  (∃ v : ℚ, ir_data[i]? = some (some v) ∧ v < ir_threshold) ∨
  (∃ vb ∈ vis_bands, ∃ vis_data, ds.find? vb = some vis_data ∧
    ∃ v : ℚ, vis_data[i]? = some (some v) ∧ vis_threshold < v)

/-! ## Helper lemmas -/

theorem zipWith_or_replicate_false (m : List Bool) :
    List.zipWith (· || ·) m (List.replicate m.length false) = m := by
  induction m with
  | nil => rfl
  | cons a t ih => simp [List.replicate_succ, ih]

theorem length_foldl_zipOr (ms : List (List Bool)) (acc : List Bool)
    (h : ∀ m ∈ ms, m.length = acc.length) :
    (ms.foldl (fun a b => List.zipWith (· || ·) a b) acc).length
      = acc.length := by
  induction ms generalizing acc with
  | nil => rfl
  | cons m t ih =>
    have hm : m.length = acc.length := h m (List.mem_cons_self m t)
    have hz : (List.zipWith (· || ·) acc m).length = acc.length := by
      simp [List.length_zipWith, hm]
    have ht : ∀ x ∈ t, x.length = (List.zipWith (· || ·) acc m).length := by
      intro x hx
      rw [hz]
      exact h x (List.mem_cons_of_mem m hx)
    simp only [List.foldl_cons]
    rw [ih (List.zipWith (· || ·) acc m) ht, hz]

theorem getD_zipWith_or (a b : List Bool) (i : ℕ) (ha : i < a.length)
    (hb : i < b.length) :
    (List.zipWith (· || ·) a b).getD i false
      = (a.getD i false || b.getD i false) := by
  simp [List.getD_eq_getElem?_getD, List.getElem?_zipWith,
    List.getElem?_eq_getElem ha, List.getElem?_eq_getElem hb]

theorem getD_foldl_zipOr (ms : List (List Bool)) (acc : List Bool) (i : ℕ)
    (hi : i < acc.length) (h : ∀ m ∈ ms, m.length = acc.length) :
    (ms.foldl (fun a b => List.zipWith (· || ·) a b) acc).getD i false
      = (acc.getD i false || ms.any fun m => m.getD i false) := by
  induction ms generalizing acc with
  | nil => simp
  | cons m t ih =>
    have hm : m.length = acc.length := h m (List.mem_cons_self m t)
    have hz : (List.zipWith (· || ·) acc m).length = acc.length := by
      simp [List.length_zipWith, hm]
    have ht : ∀ x ∈ t, x.length = (List.zipWith (· || ·) acc m).length := by
      intro x hx
      rw [hz]
      exact h x (List.mem_cons_of_mem m hx)
    simp only [List.foldl_cons]
    rw [ih (List.zipWith (· || ·) acc m) (hz ▸ hi) ht,
      getD_zipWith_or acc m i hi (hm ▸ hi)]
    simp [Bool.or_assoc]

theorem length_reduceOrMasks (ms : List (List Bool)) (n : ℕ)
    (h : ∀ m ∈ ms, m.length = n) : (reduceOrMasks ms n).length = n := by
  cases ms with
  | nil => simp [reduceOrMasks]
  | cons m t =>
    have hm : m.length = n := h m (List.mem_cons_self m t)
    have ht : ∀ x ∈ t, x.length = m.length := by
      intro x hx
      rw [hm]
      exact h x (List.mem_cons_of_mem m hx)
    simpa [reduceOrMasks, length_foldl_zipOr t m ht] using hm

theorem getD_reduceOrMasks (ms : List (List Bool)) (n i : ℕ) (hi : i < n)
    (h : ∀ m ∈ ms, m.length = n) :
    (reduceOrMasks ms n).getD i false = ms.any fun m => m.getD i false := by
  cases ms with
  | nil => simp [reduceOrMasks]
  | cons m t =>
    have hm : m.length = n := h m (List.mem_cons_self m t)
    have ht : ∀ x ∈ t, x.length = m.length := by
      intro x hx
      rw [hm]
      exact h x (List.mem_cons_of_mem m hx)
    simp only [reduceOrMasks]
    rw [getD_foldl_zipOr t m i (hm ▸ hi) ht]
    simp

theorem getD_pixelMask (data : Band) (q : ℚ → Bool) (i : ℕ)
    (hi : i < data.length) :
    ((data.map fun p => p.elim false fun v => q v).getD i false = true
      ↔ ∃ v : ℚ, data[i]? = some (some v) ∧ q v = true) := by
  rw [List.getD_eq_getElem?_getD, List.getElem?_map,
    List.getElem?_eq_getElem hi]
  cases hp : data[i] with
  | none => simp
  | some v => simp

theorem count_true_pixelMask (data : Band) (f : Pixel → Bool) :
    (data.map f).count true = data.countP f := by
  rw [List.count_eq_countP, List.countP_map]
  exact List.countP_congr fun p _ => by cases hf : f p <;> simp [Function.comp, hf]

theorem validCount_eq_countP (data : Band) :
    validCount data = data.countP Option.isSome := by
  rw [validCount, List.countP_eq_length_filter]

theorem count_irMask_le_validCount (data : Band) (thr : ℚ) :
    (irMaskOf data thr).count true ≤ validCount data := by
  rw [irMaskOf, count_true_pixelMask, validCount_eq_countP]
  refine List.countP_mono_left fun p _ hp => ?_
  cases p with
  | none => simp at hp
  | some v => rfl

theorem getD_combinedMask (ds : Scan) (ir_data : Band) (vbs : List String)
    (it vt : ℚ) (i : ℕ) (hi : i < ir_data.length)
    (hlen : ∀ vb ∈ vbs, ∀ vd, ds.find? vb = some vd →
      vd.length = ir_data.length) :
    ((combinedMask ds ir_data vbs it vt).getD i false = true ↔
      cloudyPerSpec ds ir_data vbs it vt i) := by
  have him : (irMaskOf ir_data it).length = ir_data.length := by
    simp [irMaskOf]
  have hmasks : ∀ m ∈ visMasks ds vbs vt,
      m.length = (irMaskOf ir_data it).length := by
    intro m hm
    rw [him]
    rcases List.mem_filterMap.mp hm with ⟨vb, hvb, hmap⟩
    rcases Option.map_eq_some'.mp hmap with ⟨vd, hfind, rfl⟩
    simp [visMaskOf, hlen vb hvb vd hfind]
  rw [combinedMask, getD_zipWith_or _ _ i (by rw [him]; exact hi)
    (by rw [length_reduceOrMasks _ _ hmasks, him]; exact hi)]
  rw [getD_reduceOrMasks _ _ i (by rw [him]; exact hi) hmasks]
  simp only [Bool.or_eq_true, cloudyPerSpec]
  apply or_congr
  · rw [irMaskOf, getD_pixelMask ir_data _ i hi]
    simp only [decide_eq_true_eq]
  · rw [List.any_eq_true]
    constructor
    · rintro ⟨m, hm, hgd⟩
      rcases List.mem_filterMap.mp hm with ⟨vb, hvb, hmap⟩
      rcases Option.map_eq_some'.mp hmap with ⟨vd, hfind, rfl⟩
      have hvd : vd.length = ir_data.length := hlen vb hvb vd hfind
      refine ⟨vb, hvb, vd, hfind, ?_⟩
      rw [visMaskOf, getD_pixelMask vd _ i (by rw [hvd]; exact hi)] at hgd
      simpa only [decide_eq_true_eq] using hgd
    · rintro ⟨vb, hvb, vd, hfind, v, hv, hgt⟩
      refine ⟨visMaskOf vd vt,
        List.mem_filterMap.mpr ⟨vb, hvb, by rw [hfind]; rfl⟩, ?_⟩
      have hvd : vd.length = ir_data.length := hlen vb hvb vd hfind
      rw [visMaskOf, getD_pixelMask vd _ i (by rw [hvd]; exact hi)]
      exact ⟨v, hv, by simp [hgt]⟩

theorem le_getLast_of_sorted {α : Type} [Preorder α] (l : List α)
    (hs : List.Sorted (fun a b => a ≤ b) l) (h : l ≠ []) :
    ∀ x ∈ l, x ≤ l.getLast h := by
  induction l with
  | nil => simp at h
  | cons a t ih =>
    rcases List.sorted_cons.mp hs with ⟨ha, ht⟩
    intro x hx
    cases t with
    | nil =>
      simp only [List.mem_singleton] at hx
      subst hx
      simp [List.getLast]
    | cons b t2 =>
      rw [List.getLast_cons (List.cons_ne_nil b t2)]
      rcases List.mem_cons.mp hx with rfl | hx2
      · exact ha _ (List.getLast_mem (List.cons_ne_nil b t2))
      · exact ih ht (List.cons_ne_nil b t2) x hx2

/-! ## Claim theorems -/

/-- C1: for every scan containing the IR band, `classify_ir` with threshold
280.0 returns `100 * cloudy_count / valid_count`, where a pixel is cloudy iff
its value is strictly below the threshold and `valid_count` counts the
non-NaN pixels; for the band `[270, 290, NaN, 275]` it returns `200/3`, and
whenever `valid_count = 0` (an all-NaN band) it returns NaN. -/
theorem c1_classify_ir_formula :
    (∀ (ds : Scan) (data : Band), ds.find? "CMI_C13" = some data →
      calc_cloud_fraction_ir ds =
        .ok (if 0 < validCount data
          then some (100 *
            ((data.countP fun p => p.elim false fun v => decide (v < 280)) : ℚ)
            / (validCount data : ℚ))
          else none)) ∧
    calc_cloud_fraction_ir scanIrExample = .ok (some (200 / 3)) ∧
    calc_cloud_fraction_ir scanAllNaN = .ok none := by
  refine ⟨?_, ?_, ?_⟩
  · intro ds data h
    simp only [calc_cloud_fraction_ir, h]
    rw [irMaskOf, count_true_pixelMask]
    by_cases hv : 0 < validCount data
    · rw [if_pos hv, if_pos hv, div_mul_eq_mul_div, mul_comm]
    · rw [if_neg hv, if_neg hv]
  · simp [calc_cloud_fraction_ir, scanIrExample, Scan.find?, List.lookup,
      irMaskOf, validCount]
    norm_num
  · simp [calc_cloud_fraction_ir, scanAllNaN, Scan.find?, List.lookup,
      irMaskOf, validCount]

/-- Witness for C1: the hypothesis of the general conjunct discharged on the
spec's worked example. -/
theorem c1_classify_ir_formula_witness :
    calc_cloud_fraction_ir scanIrExample =
      .ok (if 0 < validCount [some 270, some 290, none, some 275]
        then some (100 *
          ((([some 270, some 290, none, some 275] : Band).countP
            fun p => p.elim false fun v => decide (v < 280)) : ℚ)
          / (validCount [some 270, some 290, none, some 275] : ℚ))
        else none) :=
  c1_classify_ir_formula.1 scanIrExample _
    (by simp [scanIrExample, Scan.find?, List.lookup])

/-- C2: in `classify_multiband` a pixel is cloudy iff its IR value is
strictly below the IR threshold or some visible band present in the scan
exceeds the visible threshold at that pixel; on IR `[290, 270]`
(threshold 280) with one visible band `[0.1, 0.5]` (threshold 0.3) the
cloud mask is `[false, true]` and the result is 50. -/
theorem c2_multiband_mask_characterization :
    (∀ (ds : Scan) (ir_data : Band) (vis_bands : List String)
      (ir_threshold vis_threshold : ℚ) (i : ℕ), i < ir_data.length →
      (∀ vb ∈ vis_bands, ∀ vd, ds.find? vb = some vd →
        vd.length = ir_data.length) →
      ((combinedMask ds ir_data vis_bands ir_threshold vis_threshold).getD
          i false = true
        ↔ cloudyPerSpec ds ir_data vis_bands ir_threshold vis_threshold i)) ∧
    combinedMask scanDayExample [some 290, some 270] ["CMI_C02", "CMI_C03"]
      280 (3/10) = [false, true] ∧
    calc_cloud_fraction_multiband scanDayExample = .ok (some 50) := by
  refine ⟨getD_combinedMask, ?_, ?_⟩
  · simp [scanDayExample, Scan.find?, List.lookup, combinedMask, visMasks,
      reduceOrMasks, irMaskOf, visMaskOf]
    norm_num
  · simp [scanDayExample, calc_cloud_fraction_multiband, Scan.find?,
      List.lookup, combinedMask, visMasks, reduceOrMasks, irMaskOf,
      visMaskOf, validCount]
    norm_num

/-- Witness for C2: the general conjunct applied at pixel 1 of the spec's
worked example, hypotheses discharged concretely. -/
theorem c2_multiband_mask_characterization_witness :
    (combinedMask scanDayExample [some 290, some 270] ["CMI_C02", "CMI_C03"]
        280 (3/10)).getD 1 false = true
      ↔ cloudyPerSpec scanDayExample [some 290, some 270]
          ["CMI_C02", "CMI_C03"] 280 (3/10) 1 :=
  c2_multiband_mask_characterization.1 scanDayExample [some 290, some 270]
    ["CMI_C02", "CMI_C03"] 280 (3/10) 1 (by norm_num)
    (by
      intro vb hvb vd hfind
      rcases List.mem_cons.mp hvb with rfl | hvb2
      · simp [scanDayExample, Scan.find?, List.lookup] at hfind
        rw [← hfind]
        rfl
      · rcases List.mem_cons.mp hvb2 with rfl | h3
        · simp [scanDayExample, Scan.find?, List.lookup] at hfind
        · simp at h3)

/-- C3 (refuting evaluation): the claim says the percent from `classify` is
always NaN or in `[0, 100]`, but on the day path a NaN IR pixel under a
bright visible pixel is counted cloudy while excluded from the valid-pixel
denominator, so `classify` returns 200 on `scanIrNaNBrightVis`. -/
theorem c3_percent_exceeds_100_on_day_path :
    calc_cloud_fraction scanIrNaNBrightVis = .ok (some 200) ∧
    ¬ ((200 : ℚ) ≤ 100) := by
  constructor
  · simp [calc_cloud_fraction, is_daytime, scanIrNaNBrightVis,
      calc_cloud_fraction_multiband, Scan.find?, List.lookup, combinedMask,
      visMasks, reduceOrMasks, irMaskOf, visMaskOf, validCount]
    norm_num
  · norm_num

/-- C4: `is_daytime` is true iff the parsed `time_coverage_start` has UTC
hour in `[6, 18]` inclusive, and defaults to true when the attribute is
absent. -/
theorem c4_is_daytime_iff :
    (∀ ds : Scan, ds.time_coverage_start = none → is_daytime ds = true) ∧
    (∀ (ds : Scan) (t : ScanTime), ds.time_coverage_start = some t →
      (is_daytime ds = true ↔ 6 ≤ t.hour ∧ t.hour ≤ 18)) := by
  constructor
  · intro ds h
    simp [is_daytime, h]
  · intro ds t h
    simp [is_daytime, h]

/-- Witness for C4: both conjuncts applied to concrete scans (missing
attribute, and a 12:00 UTC scan). -/
theorem c4_is_daytime_iff_witness :
    is_daytime ⟨[], none⟩ = true ∧
    (is_daytime ⟨[], some ⟨12⟩⟩ = true ↔ 6 ≤ (12 : ℕ) ∧ (12 : ℕ) ≤ 18) :=
  ⟨c4_is_daytime_iff.1 ⟨[], none⟩ rfl,
    c4_is_daytime_iff.2 ⟨[], some ⟨12⟩⟩ ⟨12⟩ rfl⟩

/-- C6: `run_wget` returns the local output path — the URL's basename unless
an explicit output path is given — iff the transfer's return code is zero,
and returns the no-result value `none` on any non-zero return code. -/
theorem c6_run_wget_iff (url : String) (output_path : Option String)
    (rc : ℤ) :
    (run_wget url output_path rc = some (output_path.getD (basename url))
      ↔ rc = 0) ∧
    (rc ≠ 0 → run_wget url output_path rc = none) := by
  constructor
  · constructor
    · intro h
      by_contra hrc
      simp [run_wget, hrc] at h
    · intro h
      simp [run_wget, h]
  · intro h
    simp [run_wget, h]

/-- Witness for C6: success returns the basename-derived path, a non-zero
return code yields the no-result value. -/
theorem c6_run_wget_iff_witness :
    run_wget "https://x.s3.amazonaws.com/a/b.nc" none 0
      = some ((none : Option String).getD
          (basename "https://x.s3.amazonaws.com/a/b.nc")) ∧
    run_wget "https://x.s3.amazonaws.com/a/b.nc" (some "out.nc") 2 = none :=
  ⟨(c6_run_wget_iff "https://x.s3.amazonaws.com/a/b.nc" none 0).1.mpr rfl,
    (c6_run_wget_iff "https://x.s3.amazonaws.com/a/b.nc" (some "out.nc")
      2).2 (by norm_num)⟩

/-- C7: when none of the configured visible bands are present in the scan,
`classify_multiband` returns exactly the value of `classify_ir` on the same
scan, IR band and IR threshold. -/
theorem c7_multiband_degenerates_to_ir (ds : Scan) (ir_band : String)
    (vis_bands : List String) (ir_threshold vis_threshold : ℚ)
    (h : ∀ vb ∈ vis_bands, ds.find? vb = none) :
    calc_cloud_fraction_multiband ds ir_band vis_bands ir_threshold
      vis_threshold = calc_cloud_fraction_ir ds ir_band ir_threshold := by
  have hvm : visMasks ds vis_bands vis_threshold = [] := by
    rw [visMasks, List.filterMap_eq_nil_iff]
    intro vb hvb
    rw [h vb hvb]
    rfl
  unfold calc_cloud_fraction_multiband calc_cloud_fraction_ir
  cases hfind : ds.find? ir_band with
  | none => rfl
  | some ir_data =>
    simp only [combinedMask, hvm, reduceOrMasks, zipWith_or_replicate_false]

/-- Witness for C7: a scan with only the IR band, hypotheses discharged. -/
theorem c7_multiband_degenerates_to_ir_witness :
    calc_cloud_fraction_multiband scanIrOnly "CMI_C13"
      ["CMI_C02", "CMI_C03"] 280 (3/10)
      = calc_cloud_fraction_ir scanIrOnly "CMI_C13" 280 :=
  c7_multiband_degenerates_to_ir scanIrOnly "CMI_C13" ["CMI_C02", "CMI_C03"]
    280 (3/10)
    (by
      intro vb hvb
      rcases List.mem_cons.mp hvb with rfl | hvb2
      · simp [scanIrOnly, Scan.find?, List.lookup]
      · rcases List.mem_cons.mp hvb2 with rfl | h3
        · simp [scanIrOnly, Scan.find?, List.lookup]
        · simp at h3)

/-- C5: `find_latest` returns the no-result value `none` both when the
listing under the computed hourly key is empty and when the archive access
raises; on a non-empty (name-ordered) listing it returns the
lexicographically maximal entry; and its result depends only on the listing
of the one computed hourly key (no fallback to a previous hour). -/
theorem c5_find_latest_behaviour (ls : String → LsResult)
    (product satellite year day_of_year hour : String) :
    (∀ e, ls (hourlyKey satellite product year day_of_year hour) = .err e →
      get_latest_goes_file ls product satellite year day_of_year hour
        = none) ∧
    (ls (hourlyKey satellite product year day_of_year hour) = .ok [] →
      get_latest_goes_file ls product satellite year day_of_year hour
        = none) ∧
    (∀ files,
      ls (hourlyKey satellite product year day_of_year hour) = .ok files →
      ∀ hne : files ≠ [], List.Sorted (fun a b => a ≤ b) files →
      ∃ m, get_latest_goes_file ls product satellite year day_of_year hour
          = some m ∧ m ∈ files ∧ ∀ x ∈ files, x ≤ m) ∧
    (∀ ls2 : String → LsResult,
      ls2 (hourlyKey satellite product year day_of_year hour)
        = ls (hourlyKey satellite product year day_of_year hour) →
      get_latest_goes_file ls2 product satellite year day_of_year hour
        = get_latest_goes_file ls product satellite year day_of_year hour) := by
  refine ⟨?_, ?_, ?_, ?_⟩
  · intro e h
    simp [get_latest_goes_file, h]
  · intro h
    simp [get_latest_goes_file, h]
  · intro files h hne hsorted
    refine ⟨files.getLast hne, ?_, List.getLast_mem hne,
      le_getLast_of_sorted files hsorted hne⟩
    simp [get_latest_goes_file, h, List.getLast?_eq_getLast files hne]
  · intro ls2 h
    simp [get_latest_goes_file, h]

/-- Witness for C5: a listing with a single entry, hypotheses discharged. -/
theorem c5_find_latest_behaviour_witness :
    ∃ m, get_latest_goes_file (fun _ => LsResult.ok ["OR_ABI.nc"])
        "ABI-L2-MCMIPC" "noaa-goes19" "2025" "285" "12" = some m ∧
      m ∈ ["OR_ABI.nc"] ∧ ∀ x ∈ ["OR_ABI.nc"], x ≤ m :=
  (c5_find_latest_behaviour (fun _ => LsResult.ok ["OR_ABI.nc"])
    "ABI-L2-MCMIPC" "noaa-goes19" "2025" "285" "12").2.2.1 ["OR_ABI.nc"] rfl
    (by simp) (by simp)

/-- C8: once the download has succeeded (transfer return code 0), the
`GET /cloud-cover` handler's `try`/`finally` deletes the local artifact on
every exit path — normal success, a NaN result, and the exception path when
classification raises — so the file no longer exists when the call
completes, whatever dataset was downloaded. -/
theorem c8_artifact_removed (lf : String) (wget_leaves_file : Bool)
    (ds : Scan) :
    (get_cloud_cover (some lf) 0 wget_leaves_file ds).2 = false := by
  simp only [get_cloud_cover, run_wget]
  norm_num
  cases h : calc_cloud_fraction ds <;> simp [h]

/-- C9: the IR band `"CMI_C13"` is mandatory: when it is absent from the
scan, both classification paths (and the dispatcher) raise its `KeyError`
instead of returning a result; when it is present, `classify` always
returns a result — absent visible bands never raise. -/
theorem c9_ir_band_mandatory :
    (∀ ds : Scan, ds.find? "CMI_C13" = none →
      calc_cloud_fraction_ir ds = .error "CMI_C13" ∧
      calc_cloud_fraction_multiband ds = .error "CMI_C13" ∧
      calc_cloud_fraction ds = .error "CMI_C13") ∧
    (∀ (ds : Scan) (data : Band), ds.find? "CMI_C13" = some data →
      ∃ r, calc_cloud_fraction ds = .ok r) := by
  constructor
  · intro ds h
    refine ⟨?_, ?_, ?_⟩
    · simp [calc_cloud_fraction_ir, h]
    · simp [calc_cloud_fraction_multiband, h]
    · rw [calc_cloud_fraction]
      by_cases hd : is_daytime ds
      · simp [hd, calc_cloud_fraction_multiband, h]
      · simp [hd, calc_cloud_fraction_ir, h]
  · intro ds data h
    rw [calc_cloud_fraction]
    by_cases hd : is_daytime ds
    · simp only [hd, if_true, calc_cloud_fraction_multiband, h]
      by_cases hv : validCount data > 0
      · rw [if_pos hv]
        exact ⟨_, rfl⟩
      · rw [if_neg hv]
        exact ⟨_, rfl⟩
    · simp only [hd, if_false, calc_cloud_fraction_ir, h]
      by_cases hv : validCount data > 0
      · rw [if_pos hv]
        exact ⟨_, rfl⟩
      · rw [if_neg hv]
        exact ⟨_, rfl⟩

/-- Witness for C9: a scan with only visible data raises the IR `KeyError`
on every path; a scan with the IR band yields a result. -/
theorem c9_ir_band_mandatory_witness :
    (calc_cloud_fraction_ir ⟨[("CMI_C02", [some 1])], none⟩
        = .error "CMI_C13" ∧
      calc_cloud_fraction_multiband ⟨[("CMI_C02", [some 1])], none⟩
        = .error "CMI_C13" ∧
      calc_cloud_fraction ⟨[("CMI_C02", [some 1])], none⟩
        = .error "CMI_C13") ∧
    ∃ r, calc_cloud_fraction scanIrExample = .ok r :=
  ⟨c9_ir_band_mandatory.1 ⟨[("CMI_C02", [some 1])], none⟩
      (by simp [Scan.find?, List.lookup]),
    c9_ir_band_mandatory.2 scanIrExample [some 270, some 290, none, some 275]
      (by simp [scanIrExample, Scan.find?, List.lookup])⟩

/-- C10: in `classify_ir` a NaN pixel is never counted cloudy, so the cloudy
count is at most the valid count, and on any band with at least one non-NaN
pixel the IR-only result is a percentage in `[0, 100]`. -/
theorem c10_ir_result_bounded :
    (∀ (data : Band) (thr : ℚ),
      (irMaskOf data thr).count true ≤ validCount data) ∧
    (∀ (ds : Scan) (band : String) (thr : ℚ) (data : Band),
      ds.find? band = some data → 0 < validCount data →
      ∃ q : ℚ, calc_cloud_fraction_ir ds band thr = .ok (some q) ∧
        0 ≤ q ∧ q ≤ 100) := by
  refine ⟨count_irMask_le_validCount, ?_⟩
  intro ds band thr data h hv
  refine ⟨((irMaskOf data thr).count true : ℚ) / (validCount data : ℚ) * 100,
    ?_, ?_, ?_⟩
  · simp only [calc_cloud_fraction_ir, h]
    rw [if_pos hv]
  · positivity
  · have hc : ((irMaskOf data thr).count true : ℚ) ≤ (validCount data : ℚ) :=
      by exact_mod_cast count_irMask_le_validCount data thr
    have hvq : (0 : ℚ) < (validCount data : ℚ) := by exact_mod_cast hv
    have h1 : ((irMaskOf data thr).count true : ℚ) / (validCount data : ℚ)
        ≤ 1 := (div_le_one hvq).mpr hc
    calc ((irMaskOf data thr).count true : ℚ) / (validCount data : ℚ) * 100
        ≤ 1 * 100 := mul_le_mul_of_nonneg_right h1 (by norm_num)
      _ = 100 := by norm_num

/-- Witness for C10: both conjuncts on the spec's IR worked example. -/
theorem c10_ir_result_bounded_witness :
    (irMaskOf [some 270, some 290, none, some 275] 280).count true
      ≤ validCount [some 270, some 290, none, some 275] ∧
    ∃ q : ℚ, calc_cloud_fraction_ir scanIrExample "CMI_C13" 280
      = .ok (some q) ∧ 0 ≤ q ∧ q ≤ 100 :=
  ⟨c10_ir_result_bounded.1 [some 270, some 290, none, some 275] 280,
    c10_ir_result_bounded.2 scanIrExample "CMI_C13" 280
      [some 270, some 290, none, some 275]
      (by simp [scanIrExample, Scan.find?, List.lookup])
      (by simp [validCount])⟩
